import Mathlib

/-!
Shallow embedding of the MCHPRS redstone core (`src/blocks.rs`): the block-state
model, the block-state codec, placement resolution, the power queries and the
update-propagation cascade, together with theorems checking the specification's
claims about them.

Machine-integer conventions: `u32` quantities are modeled as `Nat` with explicit
wraparound `% 2^32` at the arithmetic sites where the source performs unchecked
`u32` arithmetic; `i32` coordinates are modeled as `Int`. Rust functions that
can panic (enum-ordinal constructors, recursion that may not terminate) are
modeled with `Option`, `none` standing for the panicking / diverging run.
-/

set_option maxHeartbeats 1000000
set_option maxRecDepth 8192

/-- One of the six axis-aligned neighbor relations (`BlockFace` in the source). -/
inductive BlockFace where
  | Bottom
  | Top
  | North
  | South
  | West
  | East
deriving DecidableEq

/-- Horizontal orientation of a placed component (`BlockDirection` in the source). -/
inductive BlockDirection where
  | North
  | South
  | East
  | West
deriving DecidableEq

/-- `BlockPos { x: i32, y: u32, z: i32 }`. -/
structure BlockPos where
  x : Int
  y : Nat
  z : Int
deriving DecidableEq

def u32_size : Nat := 4294967296

def BlockPos.new (x : Int) (y : Nat) (z : Int) : BlockPos :=
  ⟨x, y, z⟩

/-- `BlockPos::offset`. The source computes `self.y - 1` / `self.y + 1` on a
`u32` with no range check; that unchecked arithmetic is modeled with explicit
wraparound mod 2^32 (the release-build semantics of the source). -/
def BlockPos.offset (self : BlockPos) (face : BlockFace) : BlockPos :=
  match face with
  | BlockFace.Bottom => BlockPos.new self.x ((self.y + (u32_size - 1)) % u32_size) self.z
  | BlockFace.Top => BlockPos.new self.x ((self.y + 1) % u32_size) self.z
  | BlockFace.North => BlockPos.new self.x self.y (self.z - 1)
  | BlockFace.South => BlockPos.new self.x self.y (self.z + 1)
  | BlockFace.West => BlockPos.new (self.x - 1) self.y self.z
  | BlockFace.East => BlockPos.new (self.x + 1) self.y self.z

/-- `BlockDirection::opposite`. -/
def BlockDirection.opposite (self : BlockDirection) : BlockDirection :=
  match self with
  | BlockDirection.North => BlockDirection.South
  | BlockDirection.South => BlockDirection.North
  | BlockDirection.East => BlockDirection.West
  | BlockDirection.West => BlockDirection.East

/-- `BlockDirection::block_face`. -/
def BlockDirection.block_face (self : BlockDirection) : BlockFace :=
  match self with
  | BlockDirection.North => BlockFace.South
  | BlockDirection.South => BlockFace.North
  | BlockDirection.East => BlockFace.West
  | BlockDirection.West => BlockFace.East

/-- `BlockDirection::from_id`; the source panics on an ordinal `>= 4`,
modeled as `none`. -/
def BlockDirection.from_id (id : Nat) : Option BlockDirection :=
  match id with
  | 0 => some BlockDirection.North
  | 1 => some BlockDirection.South
  | 2 => some BlockDirection.West
  | 3 => some BlockDirection.East
  | _ => none

/-- `BlockDirection::get_id`. -/
def BlockDirection.get_id (self : BlockDirection) : Nat :=
  match self with
  | BlockDirection.North => 0
  | BlockDirection.South => 1
  | BlockDirection.West => 2
  | BlockDirection.East => 3

/-- `RedstoneWireSide`. -/
inductive RedstoneWireSide where
  | Up
  | Side
  | None
deriving DecidableEq

/-- `RedstoneWireSide::from_id`; the source panics on an ordinal `>= 3`,
modeled as `none`. -/
def RedstoneWireSide.from_id (id : Nat) : Option RedstoneWireSide :=
  match id with
  | 0 => some RedstoneWireSide.Up
  | 1 => some RedstoneWireSide.Side
  | 2 => some RedstoneWireSide.None
  | _ => none

/-- `RedstoneWireSide::get_id`. -/
def RedstoneWireSide.get_id (self : RedstoneWireSide) : Nat :=
  match self with
  | RedstoneWireSide.Up => 0
  | RedstoneWireSide.Side => 1
  | RedstoneWireSide.None => 2

/-- `RedstoneWire { north, south, east, west, power: u8 }`. -/
structure RedstoneWire where
  north : RedstoneWireSide
  south : RedstoneWireSide
  east : RedstoneWireSide
  west : RedstoneWireSide
  power : Nat
deriving DecidableEq

/-- `RedstoneWire::new` (field order of the source constructor). -/
def RedstoneWire.new (north south east west : RedstoneWireSide) (power : Nat) :
    RedstoneWire :=
  ⟨north, south, east, west, power⟩

/-- `RedstoneWire::is_powering`. -/
def RedstoneWire.is_powering (self : RedstoneWire) (face : BlockFace) : Bool :=
  let is_facing :=
    match face with
    | BlockFace.North => decide (self.north ≠ RedstoneWireSide.None)
    | BlockFace.South => decide (self.south ≠ RedstoneWireSide.None)
    | BlockFace.East => decide (self.east ≠ RedstoneWireSide.None)
    | BlockFace.West => decide (self.west ≠ RedstoneWireSide.None)
    | _ => false
  is_facing && decide (0 < self.power)

/-- `RedstoneRepeater { delay: u8, facing, locked, powered }`. -/
structure RedstoneRepeater where
  delay : Nat
  facing : BlockDirection
  locked : Bool
  powered : Bool
deriving DecidableEq

/-- `RedstoneRepeater::new`. -/
def RedstoneRepeater.new (delay : Nat) (facing : BlockDirection)
    (locked powered : Bool) : RedstoneRepeater :=
  ⟨delay, facing, locked, powered⟩

/-- `ComparatorMode`. -/
inductive ComparatorMode where
  | Compare
  | Subtract
deriving DecidableEq

/-- `ComparatorMode::from_id`; the source panics on an ordinal `>= 2`,
modeled as `none`. -/
def ComparatorMode.from_id (id : Nat) : Option ComparatorMode :=
  match id with
  | 0 => some ComparatorMode.Compare
  | 1 => some ComparatorMode.Subtract
  | _ => none

/-- `ComparatorMode::get_id`. -/
def ComparatorMode.get_id (self : ComparatorMode) : Nat :=
  match self with
  | ComparatorMode.Compare => 0
  | ComparatorMode.Subtract => 1

/-- `ComparatorMode::flip`. -/
def ComparatorMode.flip (self : ComparatorMode) : ComparatorMode :=
  match self with
  | ComparatorMode.Subtract => ComparatorMode.Compare
  | ComparatorMode.Compare => ComparatorMode.Subtract

/-- `RedstoneComparator { facing, mode, powered }`. -/
structure RedstoneComparator where
  facing : BlockDirection
  mode : ComparatorMode
  powered : Bool
deriving DecidableEq

/-- `RedstoneComparator::new`. -/
def RedstoneComparator.new (facing : BlockDirection) (mode : ComparatorMode)
    (powered : Bool) : RedstoneComparator :=
  ⟨facing, mode, powered⟩

/-- The closed tagged union `Block`. -/
inductive Block where
  | Air
  | RedstoneWire (wire : RedstoneWire)
  | RedstoneRepeater (repeater : RedstoneRepeater)
  | RedstoneComparator (comparator : RedstoneComparator)
  | RedstoneTorch (lit : Bool)
  | RedstoneWallTorch (lit : Bool) (facing : BlockDirection)
  | RedstoneLamp (lit : Bool)
  | Solid (id : Nat)
  | Transparent (id : Nat)
deriving DecidableEq

/-- `Block::from_block_state` (the decoder). The source matches the ranges in
this order; bit operations are translated to `Nat` arithmetic
(`& 1` = `% 2`, `>> k` = `/ 2^k`, `& 3` = `% 4`). The enum-ordinal
constructors can panic, hence the `Option` result. -/
def Block.from_block_state (id : Nat) : Option Block :=
  if id = 0 then some Block.Air
  else if 2056 ≤ id ∧ id ≤ 3351 then
    (RedstoneWireSide.from_id ((id - 2056) % 3)).bind fun west =>
    (RedstoneWireSide.from_id ((id - 2056) % 9 / 3)).bind fun south =>
    (RedstoneWireSide.from_id ((id - 2056) % 432 / 144)).bind fun north =>
    (RedstoneWireSide.from_id ((id - 2056) / 432)).bind fun east =>
    some (Block.RedstoneWire
      (RedstoneWire.new north south east west ((id - 2056) % 144 / 9)))
  else if id = 3885 then some (Block.RedstoneTorch true)
  else if id = 3886 then some (Block.RedstoneTorch false)
  else if 3887 ≤ id ∧ id ≤ 3894 then
    (BlockDirection.from_id ((id - 3887) / 2)).bind fun facing =>
    some (Block.RedstoneWallTorch (decide ((id - 3887) % 2 = 0)) facing)
  else if 4017 ≤ id ∧ id ≤ 4080 then
    (BlockDirection.from_id ((id - 4017) / 4 % 4)).bind fun facing =>
    some (Block.RedstoneRepeater
      (RedstoneRepeater.new ((id - 4017) / 16 + 1) facing
        (decide ((id - 4017) / 2 % 2 = 0)) (decide ((id - 4017) % 2 = 0))))
  else if id = 5140 then some (Block.RedstoneLamp true)
  else if id = 5141 then some (Block.RedstoneLamp false)
  else if 6142 ≤ id ∧ id ≤ 6157 then
    (ComparatorMode.from_id ((id - 6142) / 2 % 2)).bind fun mode =>
    (BlockDirection.from_id ((id - 6142) / 4)).bind fun facing =>
    some (Block.RedstoneComparator
      (RedstoneComparator.new facing mode (decide ((id - 6142) % 2 = 0))))
  else some (Block.Solid id)

/-- `Block::get_id` (the encoder). `!b as u32` is `if b then 0 else 1`;
the repeater's `delay as u32 - 1` is `Nat` subtraction. -/
def Block.get_id (self : Block) : Nat :=
  match self with
  | Block.Air => 0
  | Block.RedstoneWire wire =>
      wire.east.get_id * 432 + wire.north.get_id * 144 + wire.power * 9 +
        wire.south.get_id * 3 + wire.west.get_id + 2056
  | Block.RedstoneTorch true => 3885
  | Block.RedstoneTorch false => 3886
  | Block.RedstoneWallTorch lit facing =>
      facing.get_id * 2 + (if lit then 0 else 1) + 3887
  | Block.RedstoneRepeater repeater =>
      (repeater.delay - 1) * 16 + repeater.facing.get_id * 4 +
        (if repeater.locked then 0 else 1) * 2 +
        (if repeater.powered then 0 else 1) + 4017
  | Block.RedstoneLamp true => 5140
  | Block.RedstoneLamp false => 5141
  | Block.RedstoneComparator comparator =>
      comparator.facing.get_id * 4 + comparator.mode.get_id * 2 +
        (if comparator.powered then 0 else 1) + 6142
  | Block.Solid id => id
  | Block.Transparent id => id

/-- Constructor-wise equations for `Block.get_id`, by definitional unfolding. -/
lemma block_get_id_wire (n s e w : RedstoneWireSide) (p : Nat) :
    (Block.RedstoneWire (RedstoneWire.new n s e w p)).get_id =
      e.get_id * 432 + n.get_id * 144 + p * 9 + s.get_id * 3 + w.get_id + 2056 := rfl

lemma block_get_id_wall_torch (lit : Bool) (facing : BlockDirection) :
    (Block.RedstoneWallTorch lit facing).get_id =
      facing.get_id * 2 + (if lit then 0 else 1) + 3887 := rfl

lemma block_get_id_repeater (d : Nat) (f : BlockDirection) (l p : Bool) :
    (Block.RedstoneRepeater (RedstoneRepeater.new d f l p)).get_id =
      (d - 1) * 16 + f.get_id * 4 + (if l then 0 else 1) * 2 +
        (if p then 0 else 1) + 4017 := rfl

lemma block_get_id_comparator (f : BlockDirection) (m : ComparatorMode) (p : Bool) :
    (Block.RedstoneComparator (RedstoneComparator.new f m p)).get_id =
      f.get_id * 4 + m.get_id * 2 + (if p then 0 else 1) + 6142 := rfl

lemma block_get_id_solid (id : Nat) : (Block.Solid id).get_id = id := rfl

example : Block.from_block_state 4058 =
    some (Block.RedstoneRepeater (RedstoneRepeater.new 3 BlockDirection.West true false)) := by
  decide

example : Block.get_id
    (Block.RedstoneRepeater (RedstoneRepeater.new 3 BlockDirection.West true false)) = 4058 := by
  decide

/-- The three wire-side ordinals round-trip through `RedstoneWireSide.from_id`. -/
lemma wire_side_from_id_spec (k : Nat) (h : k < 3) :
    ∃ s : RedstoneWireSide, RedstoneWireSide.from_id k = some s ∧ s.get_id = k := by
  interval_cases k
  · exact ⟨RedstoneWireSide.Up, rfl, rfl⟩
  · exact ⟨RedstoneWireSide.Side, rfl, rfl⟩
  · exact ⟨RedstoneWireSide.None, rfl, rfl⟩

/-- The four direction ordinals round-trip through `BlockDirection.from_id`. -/
lemma direction_from_id_spec (k : Nat) (h : k < 4) :
    ∃ d : BlockDirection, BlockDirection.from_id k = some d ∧ d.get_id = k := by
  interval_cases k
  · exact ⟨BlockDirection.North, rfl, rfl⟩
  · exact ⟨BlockDirection.South, rfl, rfl⟩
  · exact ⟨BlockDirection.West, rfl, rfl⟩
  · exact ⟨BlockDirection.East, rfl, rfl⟩

/-- The two comparator-mode ordinals round-trip through `ComparatorMode.from_id`. -/
lemma comparator_mode_from_id_spec (k : Nat) (h : k < 2) :
    ∃ m : ComparatorMode, ComparatorMode.from_id k = some m ∧ m.get_id = k := by
  interval_cases k
  · exact ⟨ComparatorMode.Compare, rfl, rfl⟩
  · exact ⟨ComparatorMode.Subtract, rfl, rfl⟩

/-- Core codec fact: decoding any identifier succeeds and re-encoding the
result gives the identifier back. -/
theorem from_block_state_map_get_id (id : Nat) :
    (Block.from_block_state id).map Block.get_id = some id := by
  rw [Block.from_block_state]
  by_cases h0 : id = 0
  · subst h0; rfl
  rw [if_neg h0]
  by_cases hwire : 2056 ≤ id ∧ id ≤ 3351
  · rw [if_pos hwire]
    obtain ⟨hlo, hhi⟩ := hwire
    obtain ⟨w, hw, hw'⟩ := wire_side_from_id_spec ((id - 2056) % 3) (by omega)
    obtain ⟨s, hs, hs'⟩ := wire_side_from_id_spec ((id - 2056) % 9 / 3) (by omega)
    obtain ⟨n, hn, hn'⟩ := wire_side_from_id_spec ((id - 2056) % 432 / 144) (by omega)
    obtain ⟨e, he, he'⟩ := wire_side_from_id_spec ((id - 2056) / 432) (by omega)
    simp only [hw, hs, hn, he, Option.some_bind, Option.map_some', block_get_id_wire,
      Option.some.injEq, hw', hs', hn', he']
    omega
  rw [if_neg hwire]
  by_cases h385 : id = 3885
  · subst h385; rfl
  rw [if_neg h385]
  by_cases h386 : id = 3886
  · subst h386; rfl
  rw [if_neg h386]
  by_cases hwt : 3887 ≤ id ∧ id ≤ 3894
  · rw [if_pos hwt]
    obtain ⟨hlo, hhi⟩ := hwt
    obtain ⟨f, hf, hf'⟩ := direction_from_id_spec ((id - 3887) / 2) (by omega)
    simp only [hf, Option.some_bind, Option.map_some', block_get_id_wall_torch,
      Option.some.injEq, hf', decide_eq_true_eq]
    split_ifs with hp <;> omega
  rw [if_neg hwt]
  by_cases hrep : 4017 ≤ id ∧ id ≤ 4080
  · rw [if_pos hrep]
    obtain ⟨hlo, hhi⟩ := hrep
    obtain ⟨f, hf, hf'⟩ := direction_from_id_spec ((id - 4017) / 4 % 4) (by omega)
    simp only [hf, Option.some_bind, Option.map_some', block_get_id_repeater,
      Option.some.injEq, hf', decide_eq_true_eq]
    split_ifs with hl hp hp2 <;> omega
  rw [if_neg hrep]
  by_cases h5140 : id = 5140
  · subst h5140; rfl
  rw [if_neg h5140]
  by_cases h5141 : id = 5141
  · subst h5141; rfl
  rw [if_neg h5141]
  by_cases hcmp : 6142 ≤ id ∧ id ≤ 6157
  · rw [if_pos hcmp]
    obtain ⟨hlo, hhi⟩ := hcmp
    obtain ⟨m, hm, hm'⟩ := comparator_mode_from_id_spec ((id - 6142) / 2 % 2) (by omega)
    obtain ⟨f, hf, hf'⟩ := direction_from_id_spec ((id - 6142) / 4) (by omega)
    simp only [hm, hf, Option.some_bind, Option.map_some', block_get_id_comparator,
      Option.some.injEq, hm', hf', decide_eq_true_eq]
    split_ifs with hp <;> omega
  rw [if_neg hcmp]
  rfl

/-- **C1**: for every 32-bit identifier, `encode (decode id) = id`, and every
`Block` obtained by decoding is decoded back from its own encoding, so
`from_block_state` and `get_id` form a bijection on the identifier space. -/
theorem claim_c1_codec_bijection (id : Nat) (hid : id < 4294967296) :
    ∃ b : Block, Block.from_block_state id = some b ∧ b.get_id = id ∧
      Block.from_block_state b.get_id = some b := by
  have h := from_block_state_map_get_id id
  cases hb : Block.from_block_state id with
  | none => simp [hb] at h
  | some b =>
    simp only [hb, Option.map_some', Option.some.injEq] at h
    exact ⟨b, rfl, h, by rw [h, hb]⟩

/-- Witness for C1 at the repeater identifier 4058. -/
theorem claim_c1_codec_bijection_witness :
    4058 < 4294967296 ∧
      ∃ b : Block, Block.from_block_state 4058 = some b ∧ b.get_id = 4058 ∧
        Block.from_block_state b.get_id = some b :=
  ⟨by decide, claim_c1_codec_bijection 4058 (by decide)⟩

/-- **C3**: decoding is total — every identifier decodes without reaching a
panic branch of the ordinal constructors, and every identifier outside the
modeled ranges takes the `Solid` passthrough arm. -/
theorem claim_c3_decode_total (id : Nat) (hid : id < 4294967296) :
    (Block.from_block_state id).isSome = true ∧
      (¬(id = 0 ∨ (2056 ≤ id ∧ id ≤ 3351) ∨ id = 3885 ∨ id = 3886 ∨
          (3887 ≤ id ∧ id ≤ 3894) ∨ (4017 ≤ id ∧ id ≤ 4080) ∨ id = 5140 ∨
          id = 5141 ∨ (6142 ≤ id ∧ id ≤ 6157)) →
        Block.from_block_state id = some (Block.Solid id)) := by
  constructor
  · have h := from_block_state_map_get_id id
    cases hb : Block.from_block_state id with
    | none => simp [hb] at h
    | some b => rfl
  · intro hout
    rw [Block.from_block_state]
    repeat rw [if_neg (by omega)]

/-- Witness for C3 at the unmodeled identifier 9000. -/
theorem claim_c3_decode_total_witness :
    (Block.from_block_state 9000).isSome = true ∧
      Block.from_block_state 9000 = some (Block.Solid 9000) :=
  ⟨(claim_c3_decode_total 9000 (by decide)).1,
    (claim_c3_decode_total 9000 (by decide)).2 (by decide)⟩

/-- **C4**: the known encoding vectors — repeater{delay=3, facing=West,
locked=true, powered=false} ↦ 4058, comparator{facing=West, mode=Subtract,
powered=false} ↦ 6153, Air ↦ 0. -/
theorem claim_c4_known_vectors :
    (Block.RedstoneRepeater
        (RedstoneRepeater.new 3 BlockDirection.West true false)).get_id = 4058 ∧
      (Block.RedstoneComparator
        (RedstoneComparator.new BlockDirection.West ComparatorMode.Subtract false)).get_id
          = 6153 ∧
      Block.Air.get_id = 0 :=
  ⟨rfl, rfl, rfl⟩

/-- Modelled from the spec: the store collaborator `Plot` ("`get(pos) -> Block`;
`set(pos, Block) -> bool`"), whose implementation lives outside this module.
A plot is a total assignment of blocks to positions. -/
def Plot : Type := BlockPos → Block

/-- Modelled from the spec: `get(pos) -> Block`. -/
def Plot.get_block (plot : Plot) (pos : BlockPos) : Block :=
  plot pos

/-- Modelled from the spec: `set(pos, Block) -> bool` — stores the block and
"returns whether the value differed from the prior stored value". -/
def Plot.set_block (plot : Plot) (pos : BlockPos) (block : Block) : Plot × Bool :=
  (fun p => if p = pos then block else plot p, decide (plot pos ≠ block))

/-- Modelled from the spec: the interaction result `{Success, Pass}`
(`ActionResult` lives in the out-of-scope items module). -/
inductive ActionResult where
  | Success
  | Pass
deriving DecidableEq

/-- Modelled from the spec: the placement context (clicked face and the
placer's horizontal facing; `UseOnBlockContext` lives in the out-of-scope
items module). -/
structure UseOnBlockContext where
  block_face : BlockFace
  player_direction : BlockDirection

/-- `Block::on_use`: repeater delay cycles 1→2→3→4→1, comparator mode flips,
everything else passes; the new block is written through `set_block`
(whose changed-bit is discarded here, as in the source). -/
def Block.on_use (self : Block) (plot : Plot) (pos : BlockPos) :
    ActionResult × Plot :=
  match self with
  | Block.RedstoneRepeater repeater =>
      let delay := repeater.delay + 1
      let delay := if delay > 4 then delay - 4 else delay
      (ActionResult.Success,
        (plot.set_block pos (Block.RedstoneRepeater { repeater with delay := delay })).1)
  | Block.RedstoneComparator comparator =>
      (ActionResult.Success,
        (plot.set_block pos
          (Block.RedstoneComparator { comparator with mode := comparator.mode.flip })).1)
  | _ => (ActionResult.Pass, plot)

/-- `Block::get_block_for_placement`. The `Bool` component records whether the
catch-all arm fired (the source logs an error there via `log::error` and then
returns `Solid(245)` anyway). -/
def Block.get_block_for_placement (item_id : Nat) (context : UseOnBlockContext) :
    Block × Bool :=
  match item_id with
  | 64 => (Block.Transparent 230, false)
  | 68 => (Block.Solid 245, false)
  | 173 =>
      (match context.block_face with
       | BlockFace.Top => Block.RedstoneTorch true
       | BlockFace.Bottom => Block.RedstoneTorch true
       | BlockFace.North => Block.RedstoneWallTorch true BlockDirection.North
       | BlockFace.South => Block.RedstoneWallTorch true BlockDirection.South
       | BlockFace.East => Block.RedstoneWallTorch true BlockDirection.East
       | BlockFace.West => Block.RedstoneWallTorch true BlockDirection.West, false)
  | 513 =>
      (Block.RedstoneRepeater
        ⟨1, context.player_direction.opposite, false, false⟩, false)
  | 514 =>
      (Block.RedstoneComparator
        ⟨context.player_direction.opposite, ComparatorMode.Compare, false⟩, false)
  | _ =>
      if 82 ≤ item_id ∧ item_id ≤ 97 then (Block.Solid (item_id + 1301), false)
      else if 413 ≤ item_id ∧ item_id ≤ 428 then (Block.Solid (item_id + 8489), false)
      else (Block.Solid 245, true)

/-- `Block::is_powering`: note the source ignores `self` and re-reads the
block from the plot at `pos`. -/
def Block.is_powering (self : Block) (plot : Plot) (pos : BlockPos)
    (face : BlockFace) : Bool :=
  let block := plot.get_block pos
  match face with
  | BlockFace.North | BlockFace.South | BlockFace.East | BlockFace.West =>
      (match block with
       | Block.RedstoneTorch torch => torch
       | Block.RedstoneWallTorch torch direction =>
           torch && decide (direction.block_face ≠ face)
       | Block.RedstoneRepeater repeater =>
           repeater.powered && decide (repeater.facing.block_face = face)
       | Block.RedstoneWire wire => wire.is_powering face
       | Block.RedstoneComparator comparator =>
           comparator.powered && decide (comparator.facing.block_face = face)
       | _ => false)
  | BlockFace.Top => false
  | BlockFace.Bottom => false

/-- `Block::is_powered`. The source recursion on the six neighbors is
unguarded, so it is modeled with explicit `fuel`; `none` stands for a run
that exhausts the fuel (the possibly diverging executions). The `||` chain
short-circuits exactly as in the source. -/
def Block.is_powered (fuel : Nat) (self : Block) (plot : Plot) (pos : BlockPos) :
    Option Bool :=
  match self with
  | Block.Solid _ | Block.RedstoneLamp _ =>
      (match fuel with
       | 0 => none
       | fuel + 1 =>
           let go := fun (face : BlockFace) =>
             let p := pos.offset face
             Block.is_powered fuel (plot.get_block p) plot p
           (go BlockFace.North).bind fun b =>
           if b then some true else
           (go BlockFace.South).bind fun b =>
           if b then some true else
           (go BlockFace.East).bind fun b =>
           if b then some true else
           (go BlockFace.West).bind fun b =>
           if b then some true else
           (go BlockFace.Top).bind fun b =>
           if b then some true else
           (go BlockFace.Bottom).bind fun b =>
           some b)
  | _ => some false

/-- The `new_block` recomputation step of `Block::update` (the `match block`
assigning `new_block` in the source): a repeater recomputes `powered` from the
block behind its facing, a wire is copied unchanged, everything else is kept.
`fuel` feeds the embedded `is_powered` recursion. -/
def Block.compute_update (fuel : Nat) (plot : Plot) (pos : BlockPos) : Option Block :=
  let block := plot.get_block pos
  match block with
  | Block.RedstoneRepeater repeater =>
      let input_face :=
        match repeater.facing with
        | BlockDirection.North => BlockFace.South
        | BlockDirection.South => BlockFace.North
        | BlockDirection.East => BlockFace.West
        | BlockDirection.West => BlockFace.East
      let input_block_pos := pos.offset input_face
      let input_block := plot.get_block input_block_pos
      (Block.is_powered fuel input_block plot input_block_pos).map fun powered =>
        Block.RedstoneRepeater { repeater with
          powered := powered ||
            Block.is_powering input_block plot input_block_pos
              repeater.facing.block_face }
  | Block.RedstoneWire wire => some (Block.RedstoneWire wire)
  | _ => some block

/-- `Block::update`: recompute the block at `pos`, write it back, and if the
store reports a change or `force_updates` is set, recurse on the six
face-adjacent neighbors with `force=false` (threading the mutated plot, as the
`&mut Plot` does in the source). Unbounded recursion is modeled with `fuel`. -/
def Block.update (fuel : Nat) (self : Block) (plot : Plot) (pos : BlockPos)
    (force_updates : Bool) : Option Plot :=
  match fuel with
  | 0 => none
  | fuel + 1 =>
      (Block.compute_update fuel plot pos).bind fun new_block =>
      let result := plot.set_block pos new_block
      if result.2 || force_updates then
        let north := pos.offset BlockFace.North
        let south := pos.offset BlockFace.South
        let east := pos.offset BlockFace.East
        let west := pos.offset BlockFace.West
        let top := pos.offset BlockFace.Top
        let bottom := pos.offset BlockFace.Bottom
        (Block.update fuel ((result.1).get_block north) result.1 north false).bind fun p1 =>
        (Block.update fuel (p1.get_block south) p1 south false).bind fun p2 =>
        (Block.update fuel (p2.get_block east) p2 east false).bind fun p3 =>
        (Block.update fuel (p3.get_block west) p3 west false).bind fun p4 =>
        (Block.update fuel (p4.get_block top) p4 top false).bind fun p5 =>
        (Block.update fuel (p5.get_block bottom) p5 bottom false).bind fun p6 =>
        some p6
      else some result.1

/-- The interaction-layer calling pattern for `on_use`: read the block at
`pos` from the store, use it, and keep the resulting store. -/
def use_step (plot : Plot) (pos : BlockPos) : Plot :=
  (Block.on_use (plot.get_block pos) plot pos).2

/-- In a short-circuited `||` chain of `is_powered` results, the chain cannot
produce `some true` unless one link does. -/
lemma chain_ne_true (o : Option Bool) (rest : Option Bool)
    (ho : o ≠ some true) (hrest : rest ≠ some true) :
    (o.bind fun b => if b then some true else rest) ≠ some true := by
  intro h
  cases o with
  | none => simp at h
  | some b =>
      cases b with
      | false => simp at h; exact hrest (by simpa using h)
      | true => exact ho rfl

/-- Tail of the `||` chain. -/
lemma chain_last_ne_true (o : Option Bool) (ho : o ≠ some true) :
    (o.bind fun b => some b) ≠ some true := by
  intro h
  cases o with
  | none => simp at h
  | some b => simp at h; exact ho (by simpa [h] using rfl)

/-- The six-neighbor short-circuit `||` chain in the `Solid`/`Lamp` arm of
`is_powered`, split out for reasoning (definitionally equal to the arm body). -/
def powered_neighbors (fuel : Nat) (plot : Plot) (pos : BlockPos) : Option Bool :=
  (Block.is_powered fuel (plot.get_block (pos.offset BlockFace.North)) plot
      (pos.offset BlockFace.North)).bind fun b =>
  if b then some true else
  (Block.is_powered fuel (plot.get_block (pos.offset BlockFace.South)) plot
      (pos.offset BlockFace.South)).bind fun b =>
  if b then some true else
  (Block.is_powered fuel (plot.get_block (pos.offset BlockFace.East)) plot
      (pos.offset BlockFace.East)).bind fun b =>
  if b then some true else
  (Block.is_powered fuel (plot.get_block (pos.offset BlockFace.West)) plot
      (pos.offset BlockFace.West)).bind fun b =>
  if b then some true else
  (Block.is_powered fuel (plot.get_block (pos.offset BlockFace.Top)) plot
      (pos.offset BlockFace.Top)).bind fun b =>
  if b then some true else
  (Block.is_powered fuel (plot.get_block (pos.offset BlockFace.Bottom)) plot
      (pos.offset BlockFace.Bottom)).bind fun b =>
  some b

lemma is_powered_solid_zero (id : Nat) (plot : Plot) (pos : BlockPos) :
    Block.is_powered 0 (Block.Solid id) plot pos = none := rfl

lemma is_powered_lamp_zero (lit : Bool) (plot : Plot) (pos : BlockPos) :
    Block.is_powered 0 (Block.RedstoneLamp lit) plot pos = none := rfl

lemma is_powered_solid_succ (fuel : Nat) (id : Nat) (plot : Plot) (pos : BlockPos) :
    Block.is_powered (fuel + 1) (Block.Solid id) plot pos =
      powered_neighbors fuel plot pos := rfl

lemma is_powered_lamp_succ (fuel : Nat) (lit : Bool) (plot : Plot) (pos : BlockPos) :
    Block.is_powered (fuel + 1) (Block.RedstoneLamp lit) plot pos =
      powered_neighbors fuel plot pos := rfl

lemma is_powered_not_solid_lamp (fuel : Nat) (b : Block) (plot : Plot) (pos : BlockPos)
    (h1 : ∀ id, b ≠ Block.Solid id) (h2 : ∀ l, b ≠ Block.RedstoneLamp l) :
    Block.is_powered fuel b plot pos = some false := by
  cases b <;> first
    | exact absurd rfl (h1 _)
    | exact absurd rfl (h2 _)
    | cases fuel <;> rfl

lemma powered_neighbors_ne_some_true (fuel : Nat) (plot : Plot) (pos : BlockPos)
    (ih : ∀ (b : Block) (plot : Plot) (pos : BlockPos),
      Block.is_powered fuel b plot pos ≠ some true) :
    powered_neighbors fuel plot pos ≠ some true := by
  unfold powered_neighbors
  exact chain_ne_true _ _ (ih _ _ _)
    (chain_ne_true _ _ (ih _ _ _)
      (chain_ne_true _ _ (ih _ _ _)
        (chain_ne_true _ _ (ih _ _ _)
          (chain_ne_true _ _ (ih _ _ _)
            (chain_last_ne_true _ (ih _ _ _))))))

/-- `is_powered` never produces `some true`: every arm is either the constant
`some false` or a disjunction of recursive `is_powered` calls, so no execution
path can introduce `true`. -/
lemma is_powered_ne_some_true :
    ∀ (fuel : Nat) (b : Block) (plot : Plot) (pos : BlockPos),
      Block.is_powered fuel b plot pos ≠ some true := by
  intro fuel
  induction fuel with
  | zero =>
      intro b plot pos
      cases b <;> first
        | (rw [is_powered_solid_zero]; simp)
        | (rw [is_powered_lamp_zero]; simp)
        | (rw [is_powered_not_solid_lamp _ _ _ _ (fun _ h => Block.noConfusion h)
            (fun _ h => Block.noConfusion h)]; simp)
  | succ fuel ih =>
      intro b plot pos
      cases b <;> first
        | (rw [is_powered_solid_succ]; exact powered_neighbors_ne_some_true fuel plot pos ih)
        | (rw [is_powered_lamp_succ]; exact powered_neighbors_ne_some_true fuel plot pos ih)
        | (rw [is_powered_not_solid_lamp _ _ _ _ (fun _ h => Block.noConfusion h)
            (fun _ h => Block.noConfusion h)]; simp)

/-- Whenever `is_powered` terminates, its result is `false`. -/
lemma is_powered_eq_some_false {fuel : Nat} {b : Block} {plot : Plot}
    {pos : BlockPos} {r : Bool}
    (h : Block.is_powered fuel b plot pos = some r) : r = false := by
  cases r with
  | false => rfl
  | true => exact absurd h (is_powered_ne_some_true fuel b plot pos)

/-- **C10**: wherever `is_powered` terminates it returns `false` — the
`Solid`/`Lamp` arm only disjoins recursive `is_powered` calls (never consulting
`is_powering`) and every other variant's arm is the constant `false`, so no
execution path produces `true`. -/
theorem claim_c10_is_powered_always_false (fuel : Nat) (b : Block) (plot : Plot)
    (pos : BlockPos) (r : Bool)
    (h : Block.is_powered fuel b plot pos = some r) : r = false :=
  is_powered_eq_some_false h

/-- Witness for C10: a terminating run (`Air`, fuel 0) indeed yields `false`. -/
theorem claim_c10_is_powered_always_false_witness :
    Block.is_powered 0 Block.Air (fun _ => Block.Air : Plot) (BlockPos.new 0 1 0) =
        some false ∧ false = false :=
  ⟨rfl, claim_c10_is_powered_always_false 0 Block.Air (fun _ => Block.Air)
    (BlockPos.new 0 1 0) false rfl⟩

/-- A lit redstone torch immediately north of a solid block, air elsewhere. -/
def torch_north_plot : Plot := fun p =>
  if p = BlockPos.new 0 1 (-1) then Block.RedstoneTorch true
  else if p = BlockPos.new 0 1 0 then Block.Solid 245
  else Block.Air

/-- **C2 counterexample**: the lit torch north of the solid block powers the
block's position via `is_powering` (toward its South face), yet `is_powered`
on the solid block terminates with `false` — `is_powered` never consults
`is_powering`, refuting the claimed "if" direction. -/
theorem claim_c2_counterexample :
    Block.is_powering
        (torch_north_plot.get_block ((BlockPos.new 0 1 0).offset BlockFace.North))
        torch_north_plot ((BlockPos.new 0 1 0).offset BlockFace.North)
        BlockFace.South = true ∧
      Block.is_powered 1 (Block.Solid 245) torch_north_plot (BlockPos.new 0 1 0) =
        some false := by
  constructor
  · decide
  · decide

/-- Classifier for the two kinds whose `is_powered` arm recurses. -/
def is_solid_or_lamp : Block → Bool
  | Block.Solid _ => true
  | Block.RedstoneLamp _ => true
  | _ => false

/-- **C2 amended**: for a `Solid`/`RedstoneLamp` block, a terminating
`is_powered` run is `true` iff one of the six face-adjacent neighbors is itself
(recursively) powered — the direct `is_powering` contribution of a neighbor is
never consulted — and for every other kind `is_powered` is `false`. -/
theorem claim_c2_is_powered_neighbors_only (plot : Plot) (pos : BlockPos)
    (fuel : Nat) (b : Block) (r : Bool)
    (h : Block.is_powered (fuel + 1) b plot pos = some r) :
    (is_solid_or_lamp b = true →
      (r = true ↔ ∃ face : BlockFace,
        Block.is_powered fuel (plot.get_block (pos.offset face)) plot
          (pos.offset face) = some true)) ∧
    (is_solid_or_lamp b = false → r = false) := by
  have hr : r = false := is_powered_eq_some_false h
  subst hr
  refine ⟨fun _ => ⟨fun h' => Bool.noConfusion h', ?_⟩, fun _ => rfl⟩
  rintro ⟨face, hface⟩
  exact absurd hface (is_powered_ne_some_true _ _ _ _)

/-- Witness for the amended C2 on a concrete terminating run. -/
theorem claim_c2_is_powered_neighbors_only_witness :
    (is_solid_or_lamp Block.Air = true →
      (false = true ↔ ∃ face : BlockFace,
        Block.is_powered 0
          (Plot.get_block (fun _ => Block.Air) ((BlockPos.new 0 1 0).offset face))
          (fun _ => Block.Air) ((BlockPos.new 0 1 0).offset face) =
            some true)) ∧
    (is_solid_or_lamp Block.Air = false → false = false) :=
  claim_c2_is_powered_neighbors_only (fun _ => Block.Air) (BlockPos.new 0 1 0) 0
    Block.Air false rfl

/-- **C6**: a wall torch powers a face iff it is lit, the face is horizontal,
and the face differs from the face the torch is mounted against
(`facing.block_face()`). -/
theorem claim_c6_wall_torch_powering (self : Block) (plot : Plot) (pos : BlockPos)
    (lit : Bool) (d : BlockDirection) (face : BlockFace)
    (hblock : plot.get_block pos = Block.RedstoneWallTorch lit d) :
    (Block.is_powering self plot pos face = true ↔
      lit = true ∧
        (face = BlockFace.North ∨ face = BlockFace.South ∨
          face = BlockFace.East ∨ face = BlockFace.West) ∧
        face ≠ d.block_face) := by
  cases face <;>
    simp [Block.is_powering, hblock, Bool.and_eq_true, decide_eq_true_eq, ne_comm]

/-- Witness for C6: a lit wall torch facing North powers the West face. -/
theorem claim_c6_wall_torch_powering_witness :
    (Block.is_powering Block.Air
        (fun _ => Block.RedstoneWallTorch true BlockDirection.North : Plot)
        (BlockPos.new 0 1 0) BlockFace.West = true ↔
      true = true ∧
        (BlockFace.West = BlockFace.North ∨ BlockFace.West = BlockFace.South ∨
          BlockFace.West = BlockFace.East ∨ BlockFace.West = BlockFace.West) ∧
        BlockFace.West ≠ BlockDirection.North.block_face) :=
  claim_c6_wall_torch_powering Block.Air
    (fun _ => Block.RedstoneWallTorch true BlockDirection.North)
    (BlockPos.new 0 1 0) true BlockDirection.North BlockFace.West rfl

/-- **C7**: four `on_use` interactions restore a repeater's delay (cycling
1→2→3→4→1 through the store), two restore a comparator's mode
(Compare↔Subtract), and every other kind returns `Pass` with the store
untouched. -/
theorem claim_c7_on_use_cycles (plot : Plot) (pos : BlockPos) :
    (∀ r : RedstoneRepeater, plot.get_block pos = Block.RedstoneRepeater r →
      1 ≤ r.delay → r.delay ≤ 4 →
      (use_step (use_step (use_step (use_step plot pos) pos) pos) pos).get_block pos =
        Block.RedstoneRepeater r) ∧
    (∀ c : RedstoneComparator, plot.get_block pos = Block.RedstoneComparator c →
      (use_step (use_step plot pos) pos).get_block pos = Block.RedstoneComparator c) ∧
    (∀ b : Block,
      (∀ r, b ≠ Block.RedstoneRepeater r) → (∀ c, b ≠ Block.RedstoneComparator c) →
      Block.on_use b plot pos = (ActionResult.Pass, plot)) := by
  refine ⟨?_, ?_, ?_⟩
  · rintro ⟨d, f, l, p⟩ hr h1 h4
    have hd1 : 1 ≤ d := h1
    have hd4 : d ≤ 4 := h4
    simp only [Plot.get_block] at hr
    interval_cases d <;>
      simp [use_step, Block.on_use, Plot.set_block, Plot.get_block, hr]
  · rintro ⟨f, m, p⟩ hc
    simp only [Plot.get_block] at hc
    cases m <;>
      simp [use_step, Block.on_use, Plot.set_block, Plot.get_block, hc,
        ComparatorMode.flip]
  · intro b hr hc
    cases b <;> first
      | exact absurd rfl (hr _)
      | exact absurd rfl (hc _)
      | rfl

/-- Witness for C7 on a concrete repeater store. -/
theorem claim_c7_on_use_cycles_witness :
    (use_step (use_step (use_step (use_step
        (fun _ => Block.RedstoneRepeater
          (RedstoneRepeater.new 3 BlockDirection.West true false) : Plot)
        (BlockPos.new 0 1 0)) (BlockPos.new 0 1 0)) (BlockPos.new 0 1 0))
        (BlockPos.new 0 1 0)).get_block (BlockPos.new 0 1 0) =
      Block.RedstoneRepeater (RedstoneRepeater.new 3 BlockDirection.West true false) :=
  (claim_c7_on_use_cycles _ _).1
    (RedstoneRepeater.new 3 BlockDirection.West true false) rfl (by decide) (by decide)

/-- **C8**: when the recomputed block equals the stored one (so `set_block`
reports no change) and `force` is false, `update` stops — one unit of fuel
beyond the recompute suffices, and the resulting store agrees with the input
store at every position. -/
theorem claim_c8_update_change_gating (fuel : Nat) (self : Block) (plot : Plot)
    (pos : BlockPos) (nb : Block)
    (hcompute : Block.compute_update fuel plot pos = some nb)
    (hsame : nb = plot.get_block pos) :
    ∃ plot' : Plot, Block.update (fuel + 1) self plot pos false = some plot' ∧
      ∀ q : BlockPos, plot' q = plot q := by
  have hch : (plot.set_block pos nb).2 = false := by
    simp only [Plot.set_block, Plot.get_block] at hsame ⊢
    simp [hsame]
  refine ⟨(plot.set_block pos nb).1, ?_, ?_⟩
  · simp only [Block.update, hcompute, Option.some_bind, hch, Bool.or_self,
      Bool.or_false, Bool.false_or, if_false]
    simp
  · intro q
    by_cases hq : q = pos
    · subst hq
      simp only [Plot.set_block, Plot.get_block] at hsame ⊢
      simp [hsame]
    · simp [Plot.set_block, hq]

/-- Witness for C8 on an all-air store (recompute keeps `Air`, no change, no
recursion needed). -/
theorem claim_c8_update_change_gating_witness :
    ∃ plot' : Plot,
      Block.update 1 Block.Air (fun _ => Block.Air : Plot) (BlockPos.new 0 1 0)
          false = some plot' ∧
        ∀ q : BlockPos, plot' q = (fun _ => Block.Air : Plot) q :=
  claim_c8_update_change_gating 0 Block.Air (fun _ => Block.Air)
    (BlockPos.new 0 1 0) Block.Air rfl rfl

/-- **C5** (failing input): for item id 999 — outside every known placement
band — the resolver logs an error (second component `true`) but still returns
the fabricated fallback block `Solid(245)`, the very block a sandstone item
(id 68) legitimately places, instead of signaling a typed error. -/
theorem claim_c5_placement_fallback :
    Block.get_block_for_placement 999 ⟨BlockFace.Top, BlockDirection.North⟩ =
        (Block.Solid 245, true) ∧
      (Block.get_block_for_placement 68 ⟨BlockFace.Top, BlockDirection.North⟩).1 =
        Block.Solid 245 :=
  ⟨rfl, rfl⟩

/-- **C9** (failing input): offsetting down at the vertical floor does not fail
with a "position out of range" condition; the unchecked `u32` subtraction
wraps, yielding y = 4294967295 (release semantics; debug builds abort with a
generic arithmetic-overflow panic). -/
theorem claim_c9_offset_bottom_wraps :
    (BlockPos.new 0 0 0).offset BlockFace.Bottom = BlockPos.new 0 4294967295 0 := by
  decide
